import Mathlib

/-!
Verification development for the habutax ty2023 form definitions
(`habutax/forms/ty2023/f1040.py` and `habutax/forms/ty2023/f1040_sc.py`).

The repository sources under `src/` contain only the two form definition
files.  The generic evaluation engine (value resolver, memoization cache,
cycle guard, threshold lookup, PDF field mapper) is not part of `src/`, so
it is modelled here from the specification (sections 3, 4.1, 4.2, 4.3, 4.4
and 7 of the spec); each such definition carries a doc comment starting
with "Modelled from the spec:".  All compute functions, threshold tables,
field lists and PDF button predicates are translated directly from the two
Python sources.

Numeric values (Python floats holding dollar amounts) are modelled as
rationals; the claims under consideration only use comparison, addition,
subtraction, min and max on them.
-/

set_option maxRecDepth 100000

/-- Filing statuses of `habutax.enum.filing_status` as used by f1040.py
(the five members referenced by the source: Single, MarriedFilingJointly,
MarriedFilingSeparately, HeadOfHousehold, QualifyingSurvivingSpouse). -/
inductive FilingStatus where
  | Single
  | MarriedFilingJointly
  | MarriedFilingSeparately
  | HeadOfHousehold
  | QualifyingSurvivingSpouse
deriving DecidableEq, Repr

/-- Members of `habutax.enum.taxpayer_or_spouse` referenced by f1040.py. -/
inductive TaxpayerOrSpouse where
  | taxpayer
  | spouse
deriving DecidableEq, Repr

/-- Members of `habutax.enum.taxpayer_spouse_or_estate_trust` referenced by
f1040_sc.py. -/
inductive TaxpayerSpouseOrEstateTrust where
  | taxpayer
  | spouse
  | estateTrust
deriving DecidableEq, Repr

/-- Members of `habutax.enum.business_accounting_method` referenced by
f1040_sc.py. -/
inductive BusinessAccountingMethod where
  | cash
  | accrual
  | other
deriving DecidableEq, Repr

/-- Modelled from the spec: the semantic value of a resolved field
(section 4.1): a numeric, string, boolean or enum value, the explicit
absent-value marker (Python `None`, a blank line on the form), or the
sentinel "unsupported" marker produced for not-implemented scenarios. -/
inductive Value where
  | vnone
  | vnum (q : ℚ)
  | vstr (s : String)
  | vbool (b : Bool)
  | vfs (fs : FilingStatus)
  | vtps (t : TaxpayerOrSpouse)
  | vbam (m : BusinessAccountingMethod)
  | vunsupported
deriving DecidableEq, Repr

/-- Numeric coercion used when a compute function does arithmetic on a
fetched value.  Modelled from the spec: the absent-value marker means
"this line is blank on the form" and behaves as the additive identity in
the sums the form definitions take over it (e.g. f1040 line 1z sums lines
1a..1i, several of which legitimately resolve to the absent marker). -/
def Value.q : Value → ℚ
  | .vnum x => x
  | _ => 0

/-- Boolean coercion (Python truthiness) used when a compute function
branches on a fetched value. -/
def Value.b : Value → Bool
  | .vbool x => x
  | .vnone => false
  | .vnum x => x != 0
  | .vstr s => s != ""
  | _ => true

/-- String coercion used when a compute function builds a string from a
fetched value. -/
def Value.s : Value → String
  | .vstr x => x
  | _ => ""

/-- Test whether a fetched value equals a given `taxpayer_or_spouse`
member (the `v[...] == enum.taxpayer_or_spouse.taxpayer` comparisons of
line_4a_4b). -/
def Value.isTS (t : TaxpayerOrSpouse) : Value → Bool
  | .vtps x => x = t
  | _ => false

/-- Modelled from the spec: a fully resolved Value Key (section 3): a form
name, an optional instance label (`1099-int:0`, `8606:you`), and a field
name.  Keys written relative to a form in the sources are embedded here in
already-resolved absolute form. -/
structure Key where
  form : String
  idx : Option String
  fieldName : String
deriving DecidableEq, Repr

/-- Modelled from the spec: the fatal error taxonomy of section 7 (unknown
key / missing instance, circular dependency, threshold lookup failure),
plus fuel exhaustion of the fuel-indexed interpreter. -/
inductive RErr where
  | unknownKey (k : Key)
  | circular (chain : List Key)
  | thresholdErr (name : String)
  | outOfFuel
deriving DecidableEq, Repr

/-- Modelled from the spec: the per-Run mutable state of the Value
Resolver (section 4.1): the memoization cache, the collected unsupported
occurrences (key plus optional detail string), and - for stating the
memoization property - the log of compute-function invocations. -/
structure RState where
  cache : List (Key × Value)
  unsupp : List (Key × Option String)
  invoked : List Key
deriving DecidableEq, Repr

/-- The empty per-Run state a fresh Run starts from. -/
def st0 : RState := ⟨[], [], []⟩

/-- Modelled from the spec: a compute function as an opaque computation
interacting with the engine only through the accessor: it can fetch other
Value Keys, consult the form's threshold table, signal a not-implemented
scenario with an optional detail string, or return a value (sections 4.1
and 9, "Dynamic dispatch via ad-hoc closures"). -/
inductive Comp (α : Type) where
  | pure (a : α)
  | fetchK (k : Key) (cont : Value → Comp α)
  | thresholdK (name : String) (sel : Option FilingStatus) (cont : ℚ → Comp α)
  | notImpl (detail : Option String)

/-- Sequencing of compute-function computations. -/
def Comp.bind {α β : Type} : Comp α → (α → Comp β) → Comp β
  | .pure a, f => f a
  | .fetchK k c, f => .fetchK k (fun v => (c v).bind f)
  | .thresholdK n s c, f => .thresholdK n s (fun q => (c q).bind f)
  | .notImpl d, _ => .notImpl d

instance : Monad Comp where
  pure := Comp.pure
  bind := Comp.bind

/-- Fetch the value of another Value Key (the `v[...]` accessor). -/
def fetch (k : Key) : Comp Value := .fetchK k .pure

/-- Consult the enclosing form's threshold table (`self.threshold`). -/
def thresholdC (name : String) (sel : Option FilingStatus) : Comp ℚ :=
  .thresholdK name sel .pure

/-- Fetch a key and numerically coerce the result. -/
def fetchQ (k : Key) : Comp ℚ := do
  let v ← fetch k
  pure v.q

/-- Left-to-right sum of a Python list comprehension
`sum([f(n) for n in range(count)])`. -/
def comprSum (count : Nat) (f : Nat → Comp ℚ) : Comp ℚ :=
  (List.range count).foldl (fun acc n => acc.bind (fun a => (f n).bind (fun x => Comp.pure (a + x)))) (Comp.pure 0)

/-- Python `range(i)` over a possibly negative int: the list of indices. -/
def rangeZ (i : Int) : List Nat := List.range i.toNat

/-- Modelled from the spec: a Threshold Spec (section 3): either a bare
scalar, or buckets mapping one-or-more filing statuses (grouped via
tuples) to a scalar. -/
inductive TSpec where
  | scalar (q : ℚ)
  | buckets (bs : List (List FilingStatus × ℚ))
deriving DecidableEq, Repr

/-- A form's threshold table: threshold name to spec. -/
abbrev ThresholdTable := List (String × TSpec)

/-- Modelled from the spec: `threshold(name, selector)` (section 4.2): a
bare scalar ignores the selector; a mapping requires the selector to match
exactly one bucket (directly or as a tuple member); a missing name, a
mapping queried without a selector, or no / several matching buckets is a
lookup failure. -/
def thresholdGet (tbl : ThresholdTable) (name : String) (sel : Option FilingStatus) : Except RErr ℚ :=
  match tbl.lookup name with
  | none => .error (.thresholdErr name)
  | some (.scalar q) => .ok q
  | some (.buckets bs) =>
    match sel with
    | none => .error (.thresholdErr name)
    | some fs =>
      match bs.filter (fun b => decide (fs ∈ b.1)) with
      | [b] => .ok b.2
      | _ => .error (.thresholdErr name)

/-- The loaded form instances of a Run: each present Value Key is mapped
to the compute function backing it. -/
abbrev FormSet := Key → Option (Comp Value)

/-- The threshold tables of the loaded forms, by form name. -/
abbrev TTMap := String → ThresholdTable

/-- Modelled from the spec: one step of evaluating a compute function
(section 4.1): fetches are routed through the resolver (`doFetch`);
fetching a value that resolved to the "unsupported" sentinel makes the
depending computation itself resolve to the sentinel (without recording a
new occurrence); threshold requests consult the form's table and a lookup
failure is fatal; signalling not-implemented ends the computation with the
optional detail string. -/
def runComp (thr : String → Option FilingStatus → Except RErr ℚ)
    (doFetch : Key → RState → Except RErr (Value × RState)) :
    Comp Value → RState → Except RErr ((Value ⊕ Option String) × RState)
  | .pure v, st => .ok (.inl v, st)
  | .notImpl d, st => .ok (.inr d, st)
  | .fetchK k cont, st =>
    match doFetch k st with
    | .error e => .error e
    | .ok (v, st2) =>
      match v with
      | .vunsupported => .ok (.inl .vunsupported, st2)
      | _ => runComp thr doFetch (cont v) st2
  | .thresholdK name sel cont, st =>
    match thr name sel with
    | .error e => .error e
    | .ok q => runComp thr doFetch (cont q) st

/-- Modelled from the spec: the Value Resolver (section 4.1).  On request
for a key: a key already on the resolution stack fails with a
CircularDependency error carrying the full key chain; a cached key returns
the cached value without re-invoking its compute function; an unknown key
is fatal; otherwise the key is marked in progress (pushed on the stack),
its compute function is invoked (logged in `invoked`) with nested fetches
routed recursively through the resolver, and on return the result is
cached - a not-implemented signal caches the "unsupported" sentinel and
records the occurrence with its key and detail.  The `fuel` parameter
bounds recursion depth; every theorem below exhibits results that are
reached at the stated fuel, so fuel exhaustion never stands in for an
engine behavior. -/
def resolve (FS : FormSet) (TT : TTMap) :
    Nat → List Key → Key → RState → Except RErr (Value × RState)
  | 0, _, _, _ => .error .outOfFuel
  | fuel+1, stack, k, st =>
    if k ∈ stack then .error (.circular (stack ++ [k]))
    else
      match st.cache.lookup k with
      | some v => .ok (v, st)
      | none =>
        match FS k with
        | none => .error (.unknownKey k)
        | some comp =>
          match runComp (fun n sel => thresholdGet (TT k.form) n sel)
                        (resolve FS TT fuel (stack ++ [k])) comp
                        { st with invoked := st.invoked ++ [k] } with
          | .error e => .error e
          | .ok (.inl v, st2) => .ok (v, { st2 with cache := (k, v) :: st2.cache })
          | .ok (.inr d, st2) =>
            .ok (.vunsupported, { st2 with cache := (k, .vunsupported) :: st2.cache,
                                           unsupp := st2.unsupp ++ [(k, d)] })

/-- Modelled from the spec: a Run resolving a list of demanded Value Keys
in order, starting each top-level request with an empty resolution stack;
any fatal error aborts the Run (section 7). -/
def resolveAll (FS : FormSet) (TT : TTMap) (fuel : Nat) :
    List Key → RState → Except RErr (List Value × RState)
  | [], st => .ok ([], st)
  | k :: ks, st =>
    match resolve FS TT fuel [] k st with
    | .error e => .error e
    | .ok (v, st2) =>
      match resolveAll FS TT fuel ks st2 with
      | .error e => .error e
      | .ok (vs, st3) => .ok (v :: vs, st3)

/-- The threshold table of Form 1040, from Form1040.__init__ in f1040.py
(lines 21-72). -/
def thresholds1040 : ThresholdTable := [
  ("sched_b_required_interest", .scalar 1500),
  ("sched_b_required_dividends", .scalar 1500),
  ("standard_deduction", .buckets [
    ([.Single, .MarriedFilingSeparately], 13850),
    ([.MarriedFilingJointly, .QualifyingSurvivingSpouse], 27700),
    ([.HeadOfHousehold], 20800)]),
  ("form_8995_required", .buckets [
    ([.MarriedFilingJointly], 364200),
    ([.Single, .MarriedFilingSeparately, .QualifyingSurvivingSpouse, .HeadOfHousehold], 182100)]),
  ("additional_medicare_tax_withheld", .scalar 200000),
  ("additional_medicare_tax_applies", .buckets [
    ([.MarriedFilingJointly], 250000),
    ([.MarriedFilingSeparately], 125000),
    ([.Single, .QualifyingSurvivingSpouse, .HeadOfHousehold], 200000)]),
  ("eic_disallowed_3_dependents", .buckets [
    ([.Single, .MarriedFilingSeparately, .QualifyingSurvivingSpouse, .HeadOfHousehold], 56838),
    ([.MarriedFilingJointly], 63398)]),
  ("eic_disallowed_2_dependents", .buckets [
    ([.Single, .MarriedFilingSeparately, .QualifyingSurvivingSpouse, .HeadOfHousehold], 52918),
    ([.MarriedFilingJointly], 59478)]),
  ("eic_disallowed_1_dependents", .buckets [
    ([.Single, .MarriedFilingSeparately, .QualifyingSurvivingSpouse, .HeadOfHousehold], 46560),
    ([.MarriedFilingJointly], 53120)]),
  ("eic_disallowed_0_dependents", .buckets [
    ([.Single, .MarriedFilingSeparately, .QualifyingSurvivingSpouse, .HeadOfHousehold], 17640),
    ([.MarriedFilingJointly], 24210)]),
  ("eic_max_investment_income", .scalar 11000),
  ("tax_penalty_dollars", .scalar 1000),
  ("tax_penalty_pct", .scalar (1/10))]

/-- The threshold tables of the loaded forms: only Form 1040 declares
thresholds in the sources. -/
def tt : TTMap := fun form => if form = "1040" then thresholds1040 else []

/-- Key of a field on the singleton Form 1040 instance. -/
def k1040 (f : String) : Key := ⟨"1040", none, f⟩

/-- Key of a field on the singleton Schedule C instance (form_name
"1040_sc" in f1040_sc.py). -/
def ksc (f : String) : Key := ⟨"1040_sc", none, f⟩

/-- Key of a field on the n-th 1099-INT instance. -/
def kint (n : Nat) (f : String) : Key := ⟨"1099-int", some (toString n), f⟩

/-- Key of a field on the n-th 1099-DIV instance. -/
def kdiv (n : Nat) (f : String) : Key := ⟨"1099-div", some (toString n), f⟩

/-- Key of a field on the n-th 1099-R instance. -/
def kr (n : Nat) (f : String) : Key := ⟨"1099-r", some (toString n), f⟩

/-- Key of a field on the n-th W-2 instance. -/
def kw2 (n : Nat) (f : String) : Key := ⟨"w-2", some (toString n), f⟩

/-- The user-supplied inputs of Form 1040, from the `inputs` list of
Form1040.__init__ (hyphens in source input names become underscores; the
four per-dependent input families are modelled as functions of the
dependent index; `sa_itemize_though_less` holds the cross-form input
`1040_sa.itemize_though_less` read by the `itemizing` field and `state` is
modelled by the string it renders to). -/
structure F1040Inputs where
  first_name : String
  middle_initial : String
  last_name : String
  you_ssn : String
  spouse_ssn : String
  occupation : String
  spouse_first_name : String
  spouse_middle_initial : String
  spouse_last_name : String
  spouse_occupation : String
  phone_number : String
  email_address : String
  home_address : String
  apartment_no : String
  city : String
  state : String
  zip : String
  foreign_country : String
  foreign_province : String
  foreign_postal_code : String
  you_presidential_election : Bool
  spouse_presidential_election : Bool
  filing_status : FilingStatus
  digital_assets : Bool
  number_dependents : Int
  claimed_as_dependent : Bool
  standard_deduction_exceptions : Bool
  number_w2 : Int
  non_w2_household_employee_income : ℚ
  non_w2_tip_income : ℚ
  non_w2_medicaid_waiver : ℚ
  dependent_care : Bool
  adoption_benefits : Bool
  form_8919_required : Bool
  other_earned_income : ℚ
  nontaxable_combat_pay : Bool
  number_1098 : Int
  number_1099g : Int
  number_1099int : Int
  number_1099oid : Int
  number_1099div : Int
  qualified_dividends_incorrect : Bool
  ordinary_dividends_incorrect : Bool
  number_1099r : Int
  ira_exception1_you : Bool
  ira_exception1_you_total : Bool
  ira_exception2_you : Bool
  ira_exception3_you : Bool
  ira_exception3_you_total : Bool
  ira_exception4_you : Bool
  ira_exception1_spouse : Bool
  ira_exception1_spouse_total : Bool
  ira_exception2_spouse : Bool
  ira_exception3_spouse : Bool
  ira_exception3_spouse_total : Bool
  ira_exception4_spouse : Bool
  pensions_annuities_adjustments : Bool
  social_security_benefits : Bool
  schedule_d_required : Bool
  form_8949_required : Bool
  schedule_1_additional_income : Bool
  schedule_1_income_adjustments : Bool
  itemize : Bool
  sa_itemize_though_less : Bool
  uncommon_tax : Bool
  need_8615 : Bool
  need_8962 : Bool
  need_schedule_3_part_i : Bool
  need_schedule_3_part_ii : Bool
  need_schedule_2 : Bool
  other_federal_withholding : ℚ
  estimated_tax_payments : ℚ
  self_employment_income : Bool
  rrta_compensation : Bool
  form_4797 : Bool
  postsecondary_education_expenses : Bool
  apply_to_estimated_tax : ℚ
  routing_number : String
  checking_account : Bool
  account_number : String
  tax_penalty : ℚ
  dependent_name : Nat → String
  dependent_ssn : Nat → String
  dependent_relationship : Nat → String
  dependent_ctc : Nat → Bool
  dependent_odc : Nat → Bool

/-- The user-supplied inputs of Schedule C, from the `inputs` list of
Form1040SC.__init__. -/
structure F1040SCInputs where
  proprietor_name : String
  ssn_source : TaxpayerSpouseOrEstateTrust
  a : String
  b : String
  c : String
  d : String
  e1 : String
  e2 : String
  f : BusinessAccountingMethod
  f_other : String
  accounting_method_changed : Bool
  g : Bool
  h : Bool
  i : Bool

/-- Modelled from the spec: the box values of one 1099-INT information
document (a repeatable source-document form; its definition file is not
under src/).  The fields read by the sources are payer, box_1, box_3,
box_4, box_6 and box_8. -/
structure F1099IntInputs where
  payer : String
  box_1 : ℚ
  box_3 : ℚ
  box_4 : ℚ
  box_6 : ℚ
  box_8 : ℚ
deriving DecidableEq, Repr

/-- Modelled from the spec: the box values of one 1099-R information
document.  The fields read by the sources are box_1, box_2a,
box_2b_taxable_not_determined, box_4, box_7_ira_sep_simple and
belongs_to. -/
structure F1099RInputs where
  box_1 : ℚ
  box_2a : ℚ
  box_2b_taxable_not_determined : Bool
  box_4 : ℚ
  box_7_ira_sep_simple : Bool
  belongs_to : TaxpayerOrSpouse
deriving DecidableEq, Repr

/-- Convert an optional amount (Python float-or-None) to a field value. -/
def optQ : Option ℚ → Value
  | some q => .vnum q
  | none => .vnone

/-- Python bool-to-int coercion used in `sum([i[...], ...]) > 1`. -/
def boolToQ (b : Bool) : ℚ := if b then 1 else 0

/-- The helper `full_names` of f1040.py: the taxpayer's full name, plus
the spouse's when filing jointly, joined with ", ". -/
def full_names (I : F1040Inputs) : Comp Value := do
  let fn ← fetch (k1040 "first_name")
  let ln ← fetch (k1040 "last_name")
  let base := fn.s ++ " " ++ ln.s
  if I.filing_status = .MarriedFilingJointly then do
    let sfn ← fetch (k1040 "spouse_first_name")
    let sln ← fetch (k1040 "spouse_last_name")
    pure (.vstr (base ++ ", " ++ sfn.s ++ " " ++ sln.s))
  else pure (.vstr base)

/-- Loop of `line_1a`: scan each W-2 for box 13 statutory-employee, which
is not implemented. -/
def line_1a_statutory_scan (ns : List Nat) : Comp Unit :=
  match ns with
  | [] => pure ()
  | n :: rest => do
    let b ← fetch (kw2 n "box_13_statutory")
    if b.b then Comp.notImpl none
    else line_1a_statutory_scan rest

/-- `line_1a` of f1040.py: total W-2 box 1 wages, or absent when no W-2
was provided. -/
def line_1a (I : F1040Inputs) : Comp Value := do
  line_1a_statutory_scan (rangeZ I.number_w2)
  if I.number_w2 > 0 then do
    let s ← comprSum I.number_w2.toNat (fun n => fetchQ (kw2 n "box_1"))
    pure (.vnum s)
  else pure .vnone

/-- `line_2b` of f1040.py: taxable interest; requires Schedule B above the
threshold, and OID forms are not implemented. -/
def line_2b (I : F1040Inputs) : Comp Value := do
  let total ← comprSum I.number_1099int.toNat (fun n => do
    let a ← fetchQ (kint n "box_1")
    let b ← fetchQ (kint n "box_3")
    pure (a + b))
  let thr ← thresholdC "sched_b_required_interest" none
  if total > thr then
    fetch ⟨"1040_sb", none, "4"⟩
  else if I.number_1099oid > 0 then
    Comp.notImpl none
  else if I.number_1099int + I.number_1099oid > 0 then
    pure (.vnum total)
  else pure .vnone

/-- `line_3a` of f1040.py: qualified dividends. -/
def line_3a (I : F1040Inputs) : Comp Value := do
  let total ← comprSum I.number_1099div.toNat (fun n => fetchQ (kdiv n "box_1b"))
  if total > 0 ∧ I.qualified_dividends_incorrect then
    Comp.notImpl none
  else if I.number_1099div > 0 then pure (.vnum total)
  else pure .vnone

/-- `line_3b` of f1040.py: ordinary dividends; requires Schedule B above
the threshold. -/
def line_3b (I : F1040Inputs) : Comp Value := do
  let total ← comprSum I.number_1099div.toNat (fun n => fetchQ (kdiv n "box_1a"))
  let thr ← thresholdC "sched_b_required_dividends" none
  if total > thr then
    fetch ⟨"1040_sb", none, "6"⟩
  else if I.ordinary_dividends_incorrect then
    Comp.notImpl none
  else if I.number_1099div > 0 then pure (.vnum total)
  else pure .vnone

/-- The IRA-distribution sums of `line_4a_4b`: total 1099-R box 1 over the
instances whose box 7 has the IRA/SEP/SIMPLE mark and which belong to the
given person. -/
def ira_distributions (I : F1040Inputs) (who : TaxpayerOrSpouse) : Comp ℚ :=
  comprSum I.number_1099r.toNat (fun n => do
    let b7 ← fetch (kr n "box_7_ira_sep_simple")
    if b7.b then do
      let bt ← fetch (kr n "belongs_to")
      if bt.isTS who then fetchQ (kr n "box_1")
      else pure 0
    else pure 0)

/-- One person's contribution to lines 4a and 4b in `line_4a_4b` of
f1040.py (the body of each of the two symmetric `if ira_distributions_* >
0.001` blocks, returning the amounts added to line_4a and line_4b). -/
def line4_contribution (dist : ℚ) (e1 e1total e2 e3 e3total e4 : Bool)
    (k8606 : Key) : Comp (ℚ × ℚ) :=
  if dist > 1/1000 then
    if boolToQ e1 + boolToQ e2 + boolToQ e3 + boolToQ e4 > 1 then
      Comp.notImpl none
    else if e1 then
      if !e1total then Comp.notImpl none else pure (dist, 0)
    else if e2 then do
      let t ← fetchQ k8606
      pure (dist, t)
    else if e3 then
      if !e3total ∨ dist > 1000000 then Comp.notImpl none else pure (dist, 0)
    else if e4 then Comp.notImpl none
    else pure (0, dist)
  else pure (0, 0)

/-- `line_4a_4b` of f1040.py: the shared helper computing IRA
distributions (line 4a) and their taxable amount (line 4b), backing both
field 4a and field 4b. -/
def line_4a_4b (I : F1040Inputs) : Comp (Option ℚ × Option ℚ) := do
  let you ← ira_distributions I .taxpayer
  let spouse ← ira_distributions I .spouse
  let p1 ← line4_contribution you I.ira_exception1_you I.ira_exception1_you_total
    I.ira_exception2_you I.ira_exception3_you I.ira_exception3_you_total
    I.ira_exception4_you ⟨"8606", some "you", "taxable_amount"⟩
  let p2 ← line4_contribution spouse I.ira_exception1_spouse I.ira_exception1_spouse_total
    I.ira_exception2_spouse I.ira_exception3_spouse I.ira_exception3_spouse_total
    I.ira_exception4_spouse ⟨"8606", some "spouse", "taxable_amount"⟩
  if you + spouse > 1/1000 then pure (some (p1.1 + p2.1), some (p1.2 + p2.2))
  else pure (none, none)

/-- Loop of `line_5a_5b` of f1040.py, accumulating non-IRA 1099-R
distributions and taxable amounts. -/
def line_5a_5b_loop (ns : List Nat) (acc : ℚ × ℚ) : Comp (ℚ × ℚ) :=
  match ns with
  | [] => pure acc
  | n :: rest => do
    let b7 ← fetch (kr n "box_7_ira_sep_simple")
    if !b7.b then do
      let nd ← fetch (kr n "box_2b_taxable_not_determined")
      if nd.b then Comp.notImpl none
      else do
        let b1 ← fetchQ (kr n "box_1")
        let b2a ← fetchQ (kr n "box_2a")
        line_5a_5b_loop rest (acc.1 + b1, acc.2 + b2a)
    else line_5a_5b_loop rest acc

/-- `line_5a_5b` of f1040.py: the shared helper computing pension and
annuity payments (line 5a) and their taxable amount (line 5b). -/
def line_5a_5b (I : F1040Inputs) : Comp (Option ℚ × Option ℚ) := do
  if I.pensions_annuities_adjustments then Comp.notImpl none
  else do
    let dt ← line_5a_5b_loop (rangeZ I.number_1099r) (0, 0)
    if dt.1 + dt.2 > 1/1000 then pure (some dt.1, some dt.2)
    else pure (none, none)

/-- The helper `schedule_1_additional_income` of f1040.py: whether
Schedule 1 additional income is needed. -/
def sched1_additional_income (I : F1040Inputs) : Comp Value := do
  let mort ← comprSum I.number_1098.toNat (fun n => fetchQ ⟨"1098", some (toString n), "box_4"⟩)
  let refund ← comprSum I.number_1099g.toNat (fun n => fetchQ ⟨"1099-g", some (toString n), "box_2"⟩)
  pure (.vbool (decide (mort + refund > 1/1000) || I.schedule_1_additional_income))

/-- The helper `standard_deduction` of f1040.py: the filing-status
dependent standard deduction threshold. -/
def standard_deduction_helper (I : F1040Inputs) : Comp ℚ :=
  thresholdC "standard_deduction" (some I.filing_status)

/-- The `itemizing` field of f1040.py: itemize when requested and either
itemized deductions reach the standard deduction or the cross-form input
forces it. -/
def itemizing_field (I : F1040Inputs) : Comp Value := do
  if I.itemize then do
    let s17 ← fetch ⟨"1040_sa", none, "17"⟩
    let sd ← standard_deduction_helper I
    if s17.q ≥ sd then pure (.vbool true)
    else pure (.vbool I.sa_itemize_though_less)
  else pure (.vbool false)

/-- `line_12` of f1040.py: itemized or standard deduction. -/
def line_12 (I : F1040Inputs) : Comp Value := do
  let it ← fetch (k1040 "itemizing")
  if it.b then fetch ⟨"1040_sa", none, "17"⟩
  else if I.standard_deduction_exceptions then Comp.notImpl none
  else do
    let sd ← standard_deduction_helper I
    pure (.vnum sd)

/-- `line_13` of f1040.py: qualified business income deduction. -/
def line_13 (I : F1040Inputs) : Comp Value := do
  let s199a ← comprSum I.number_1099div.toNat (fun n => fetchQ (kdiv n "box_5"))
  let lim ← thresholdC "form_8995_required" (some I.filing_status)
  if s199a > 1/1000 then do
    let v11 ← fetch (k1040 "11")
    if v11.q > lim then Comp.notImpl none
    else fetch ⟨"8995", none, "15"⟩
  else pure .vnone

/-- `line_16` of f1040.py: tax, via the qualified-dividends worksheet when
applicable, else via the figure_tax helper (whose definition file,
f1040_figure_tax.py, is not under src/ and is taken as an opaque
parameter `fig`). -/
def line_16 (I : F1040Inputs) (fig : ℚ → FilingStatus → ℚ) : Comp Value := do
  if I.uncommon_tax || I.need_8615 || I.schedule_d_required then Comp.notImpl none
  else do
    let a ← fetch (k1040 "3a")
    if a.q > 1/1000 then fetch ⟨"1040_qualdiv_capgain_tax_wkst", none, "25"⟩
    else do
      let g ← fetch (k1040 "7")
      if g.q > 1/1000 then fetch ⟨"1040_qualdiv_capgain_tax_wkst", none, "25"⟩
      else do
        let t ← fetch (k1040 "15")
        pure (.vnum (fig t.q I.filing_status))

/-- `line_19` of f1040.py: child tax credit from Schedule 8812 when there
are dependents. -/
def line_19 (I : F1040Inputs) : Comp Value := do
  if I.number_dependents > 0 then fetch ⟨"1040_s8812", none, "14"⟩
  else pure .vnone

/-- The helper `need_schedule_3_part_i` of f1040.py: whether Schedule 3
part I is needed (foreign tax paid or requested). -/
def need_sched3_part_i (I : F1040Inputs) : Comp Value := do
  let ft1 ← comprSum I.number_1099int.toNat (fun n => fetchQ (kint n "box_6"))
  let ft2 ← comprSum I.number_1099div.toNat (fun n => fetchQ (kdiv n "box_7"))
  pure (.vbool (decide (ft1 + ft2 > 1/1000) || I.need_schedule_3_part_i))

/-- `line_25b` of f1040.py: federal withholding from 1099 forms. -/
def line_25b (I : F1040Inputs) : Comp Value := do
  let w1 ← comprSum I.number_1099r.toNat (fun n => fetchQ (kr n "box_4"))
  let w2 ← comprSum I.number_1099div.toNat (fun n => fetchQ (kdiv n "box_4"))
  let w3 ← comprSum I.number_1099int.toNat (fun n => fetchQ (kint n "box_4"))
  let w := w1 + w2 + w3
  if w > 1/1000 then pure (.vnum w) else pure .vnone

/-- Early-return loop of `form_8959_required` of f1040.py: does any W-2
have box 5 above the additional-medicare withholding threshold? -/
def form_8959_box5_scan (ns : List Nat) : Comp Bool :=
  match ns with
  | [] => pure false
  | n :: rest => do
    let b5 ← fetch (kw2 n "box_5")
    let thr ← thresholdC "additional_medicare_tax_withheld" none
    if b5.q > thr then pure true
    else form_8959_box5_scan rest

/-- The helper `form_8959_required` of f1040.py: whether Form 8959
(additional medicare tax) is required. -/
def form_8959_required (I : F1040Inputs) : Comp Bool := do
  let early ← form_8959_box5_scan (rangeZ I.number_w2)
  if early then pure true
  else do
    let thr ← thresholdC "additional_medicare_tax_applies" (some I.filing_status)
    let wages ← comprSum I.number_w2.toNat (fun n => fetchQ (kw2 n "box_5"))
    if wages > thr then pure true
    else if I.rrta_compensation || I.self_employment_income then Comp.notImpl none
    else pure false

/-- `line_25c` of f1040.py: other federal withholding, including
additional medicare tax withholding when Form 8959 is required. -/
def line_25c (I : F1040Inputs) : Comp Value := do
  let req ← form_8959_required I
  let medicare ← if req then fetchQ ⟨"8959", none, "24"⟩ else pure 0
  let w := medicare + I.other_federal_withholding
  if w > 1/1000 then pure (.vnum w) else pure .vnone

/-- `line_28` of f1040.py: additional child tax credit from Schedule 8812
when there are dependents. -/
def line_28 (I : F1040Inputs) : Comp Value := do
  if I.number_dependents > 0 then fetch ⟨"1040_s8812", none, "27"⟩
  else pure .vnone

/-- The helper `possible_eic` of f1040.py: whether the earned income
credit might apply. -/
def possible_eic (I : F1040Inputs) : Comp Bool := do
  let dependents : Int := min 3 I.number_dependents
  let lim ← thresholdC ("eic_disallowed_" ++ toString dependents ++ "_dependents")
    (some I.filing_status)
  let v11 ← fetch (k1040 "11")
  if v11.q ≥ lim then pure false
  else do
    let a ← fetch (k1040 "2a")
    let b ← fetch (k1040 "2b")
    let c ← fetch (k1040 "3b")
    let d ← fetch (k1040 "7")
    let invest := a.q + b.q + c.q + max 0 d.q
    let mx ← thresholdC "eic_max_investment_income" none
    if invest > mx ∧ !I.form_4797 then pure false
    else pure true

/-- `line_38` of f1040.py: estimated tax penalty. -/
def line_38 (I : F1040Inputs) : Comp Value := do
  let t24 ← fetch (k1040 "24")
  let t27 ← fetch (k1040 "27")
  let t28 ← fetch (k1040 "28")
  let t29 ← fetch (k1040 "29")
  let base := t24.q - (t27.q + t28.q + t29.q)
  let shown ← if I.need_schedule_3_part_ii then do
      let a ← fetch ⟨"1040_s3", none, "9"⟩
      let b ← fetch ⟨"1040_s3", none, "12"⟩
      let c ← fetch ⟨"1040_s3", none, "13b"⟩
      let d ← fetch ⟨"1040_s3", none, "13h"⟩
      pure (base - (a.q + b.q + c.q + d.q))
    else pure base
  let v37 ← fetch (k1040 "37")
  let dollars ← thresholdC "tax_penalty_dollars" none
  if v37.q ≥ dollars then do
    let pct ← thresholdC "tax_penalty_pct" none
    if v37.q > pct * shown then pure (.vnum I.tax_penalty) else pure .vnone
  else pure .vnone

/-- The per-dependent `dependent_{n}_ctc` field of f1040.py: the ctc input
when the dependent slot is used, else absent. -/
def dependent_ctc_field (I : F1040Inputs) (n : Nat) : Comp Value :=
  pure (if (n : Int) < I.number_dependents then .vbool (I.dependent_ctc n) else .vnone)

/-- The per-dependent `dependent_{n}_odc` field of f1040.py: the odc input
when the dependent slot is used and the resolved ctc field is falsy, else
absent (the ctc field is only fetched when the slot is used, mirroring the
short-circuit `and`). -/
def dependent_odc_field (I : F1040Inputs) (n : Nat) : Comp Value :=
  if (n : Int) < I.number_dependents then
    (fetch (k1040 ("dependent_" ++ toString n ++ "_ctc"))).bind (fun v =>
      pure (if v.b then Value.vnone else .vbool (I.dependent_odc n)))
  else pure .vnone

/-- The per-dependent string fields of f1040.py (name, ssn,
relationship). -/
def dependent_str_field (I : F1040Inputs) (n : Nat) (get : Nat → String) : Comp Value :=
  pure (if (n : Int) < I.number_dependents then .vstr (get n) else .vnone)

/-- The `required_fields` list of Form1040.__init__ in f1040.py, as a map
from field name to the compute function backing it (each arm is the
translation of the corresponding Field entry; `fig` stands for the
figure_tax helper, whose source is not under src/). -/
def f1040field (I : F1040Inputs) (fig : ℚ → FilingStatus → ℚ) : String → Option (Comp Value)
  | "filing_status" => some (pure (.vfs I.filing_status))
  | "first_name" => some (pure (.vstr (I.first_name ++ " " ++ I.middle_initial).trim))
  | "last_name" => some (pure (.vstr I.last_name))
  | "you_ssn" => some (pure (.vstr I.you_ssn))
  | "spouse_first_name" => some (pure (if I.filing_status = .MarriedFilingJointly then
      .vstr (I.spouse_first_name ++ " " ++ I.spouse_middle_initial).trim else .vnone))
  | "spouse_last_name" => some (pure (if I.filing_status = .MarriedFilingJointly then
      .vstr I.spouse_last_name else .vnone))
  | "spouse_ssn" => some (pure (if I.filing_status = .MarriedFilingJointly then
      .vstr I.spouse_ssn else .vnone))
  | "full_names" => some (full_names I)
  | "home_address" => some (pure (.vstr I.home_address))
  | "apartment_no" => some (pure (.vstr I.apartment_no))
  | "city" => some (pure (.vstr I.city))
  | "state" => some (pure (.vstr I.state))
  | "zip" => some (pure (.vstr I.zip))
  | "foreign_country" => some (pure (.vstr I.foreign_country))
  | "foreign_province" => some (pure (.vstr I.foreign_province))
  | "foreign_postal_code" => some (pure (.vstr I.foreign_postal_code))
  | "you_presidential_election" => some (pure (.vbool I.you_presidential_election))
  | "spouse_presidential_election" => some (pure (.vbool
      (if I.filing_status = .MarriedFilingJointly then I.spouse_presidential_election else false)))
  | "digital_assets" => some (if I.digital_assets then Comp.notImpl none else pure (.vbool false))
  | "1a" => some (line_1a I)
  | "1b" => some (pure (if I.non_w2_household_employee_income > 0 then
      .vnum I.non_w2_household_employee_income else .vnone))
  | "1c" => some (pure (if I.non_w2_tip_income > 0 then .vnum I.non_w2_tip_income else .vnone))
  | "1d" => some (pure (if I.non_w2_medicaid_waiver > 0 then .vnum I.non_w2_medicaid_waiver else .vnone))
  | "1e" => some (if I.dependent_care then Comp.notImpl none else pure .vnone)
  | "1f" => some (if I.adoption_benefits then Comp.notImpl none else pure .vnone)
  | "1g" => some (if I.form_8919_required then Comp.notImpl none else pure .vnone)
  | "1h" => some (pure (if I.other_earned_income > 0 then .vnum I.other_earned_income else .vnone))
  | "1i" => some (if I.nontaxable_combat_pay then Comp.notImpl none else pure .vnone)
  | "1z" => some (do
      let a ← fetch (k1040 "1a"); let b ← fetch (k1040 "1b"); let c ← fetch (k1040 "1c")
      let d ← fetch (k1040 "1d"); let e ← fetch (k1040 "1e"); let f ← fetch (k1040 "1f")
      let g ← fetch (k1040 "1g"); let h ← fetch (k1040 "1h"); let j ← fetch (k1040 "1i")
      pure (.vnum (a.q + b.q + c.q + d.q + e.q + f.q + g.q + h.q + j.q)))
  | "2a" => some (do
      let s ← comprSum I.number_1099int.toNat (fun n => fetchQ (kint n "box_8"))
      pure (.vnum s))
  | "2b" => some (line_2b I)
  | "3a" => some (line_3a I)
  | "3b" => some (line_3b I)
  | "4a" => some ((line_4a_4b I).bind (fun p => pure (optQ p.1)))
  | "4b" => some ((line_4a_4b I).bind (fun p => pure (optQ p.2)))
  | "5a" => some ((line_5a_5b I).bind (fun p => pure (optQ p.1)))
  | "5b" => some ((line_5a_5b I).bind (fun p => pure (optQ p.2)))
  | "6a" => some (if I.social_security_benefits then Comp.notImpl none else pure .vnone)
  | "6b" => some (if I.social_security_benefits then Comp.notImpl none else pure .vnone)
  | "6c" => some (if I.social_security_benefits then Comp.notImpl none else pure .vnone)
  | "7_checkbox" => some (pure (.vbool (!I.schedule_d_required)))
  | "7" => some (if I.schedule_d_required || I.form_8949_required then Comp.notImpl none
      else do
        let s ← comprSum I.number_1099div.toNat (fun n => fetchQ (kdiv n "box_2a"))
        pure (.vnum s))
  | "schedule_1_additional_income" => some (sched1_additional_income I)
  | "8" => some (do
      let b ← fetch (k1040 "schedule_1_additional_income")
      if b.b then fetch ⟨"1040_s1", none, "10"⟩ else pure .vnone)
  | "9" => some (do
      let a ← fetch (k1040 "1z"); let b ← fetch (k1040 "2b"); let c ← fetch (k1040 "3b")
      let d ← fetch (k1040 "4b"); let e ← fetch (k1040 "5b"); let f ← fetch (k1040 "6b")
      let g ← fetch (k1040 "7"); let h ← fetch (k1040 "8")
      pure (.vnum (a.q + b.q + c.q + d.q + e.q + f.q + g.q + h.q)))
  | "10" => some (if I.schedule_1_income_adjustments then fetch ⟨"1040_s1", none, "26"⟩
      else pure .vnone)
  | "11" => some (do
      let a ← fetch (k1040 "9"); let b ← fetch (k1040 "10")
      pure (.vnum (a.q - b.q)))
  | "itemizing" => some (itemizing_field I)
  | "12" => some (line_12 I)
  | "13" => some (line_13 I)
  | "14" => some (do
      let a ← fetch (k1040 "12"); let b ← fetch (k1040 "13")
      pure (.vnum (a.q + b.q)))
  | "15" => some (do
      let a ← fetch (k1040 "11"); let b ← fetch (k1040 "14")
      pure (.vnum (max 0 (a.q - b.q))))
  | "16" => some (line_16 I fig)
  | "schedule_2_part_i_needed" => some (if I.need_8962 then pure (.vbool true)
      else (fetch ⟨"1040_s2_need_6251", none, "need_6251"⟩).bind (fun b => pure (.vbool b.b)))
  | "17" => some (do
      let b ← fetch (k1040 "schedule_2_part_i_needed")
      if b.b then fetch ⟨"1040_s2", none, "3"⟩ else pure .vnone)
  | "18" => some (do
      let a ← fetch (k1040 "16"); let b ← fetch (k1040 "17")
      pure (.vnum (a.q + b.q)))
  | "19" => some (line_19 I)
  | "need_schedule_3_part_i" => some (need_sched3_part_i I)
  | "20" => some (do
      let b ← fetch (k1040 "need_schedule_3_part_i")
      if b.b then fetch ⟨"1040_s3", none, "8"⟩ else pure .vnone)
  | "21" => some (do
      let a ← fetch (k1040 "19"); let b ← fetch (k1040 "20")
      pure (.vnum (a.q + b.q)))
  | "22" => some (do
      let a ← fetch (k1040 "18"); let b ← fetch (k1040 "21")
      pure (.vnum (max 0 (a.q - b.q))))
  | "23" => some (if I.need_schedule_2 then Comp.notImpl none else pure .vnone)
  | "24" => some (do
      let a ← fetch (k1040 "22"); let b ← fetch (k1040 "23")
      pure (.vnum (a.q + b.q)))
  | "25a" => some (do
      let s ← comprSum I.number_w2.toNat (fun n => fetchQ (kw2 n "box_2"))
      pure (if I.number_w2 > 0 then .vnum s else .vnone))
  | "25b" => some (line_25b I)
  | "25c" => some (line_25c I)
  | "25d" => some (do
      let a ← fetch (k1040 "25a"); let b ← fetch (k1040 "25b"); let c ← fetch (k1040 "25c")
      pure (.vnum (a.q + b.q + c.q)))
  | "26" => some (pure (.vnum I.estimated_tax_payments))
  | "27" => some ((possible_eic I).bind (fun p =>
      if p then Comp.notImpl (some "You may be able to claim the Earned Income Credit, but it is not implemented")
      else pure .vnone))
  | "28" => some (line_28 I)
  | "29" => some (if I.postsecondary_education_expenses then
      Comp.notImpl (some "Form 8863 not implemented") else pure .vnone)
  | "30" => some (pure .vnone)
  | "31" => some (if I.need_schedule_3_part_ii then Comp.notImpl none else pure .vnone)
  | "32" => some (do
      let a ← fetch (k1040 "27"); let b ← fetch (k1040 "28"); let c ← fetch (k1040 "29")
      let d ← fetch (k1040 "31")
      pure (.vnum (a.q + b.q + c.q + d.q)))
  | "33" => some (do
      let a ← fetch (k1040 "25d"); let b ← fetch (k1040 "26"); let c ← fetch (k1040 "32")
      pure (.vnum (a.q + b.q + c.q)))
  | "34" => some (do
      let a ← fetch (k1040 "33"); let b ← fetch (k1040 "24")
      pure (if a.q > b.q then .vnum (a.q - b.q) else .vnone))
  | "35a" => some (do
      let a ← fetch (k1040 "34")
      if a.q > 1/1000 then do
        let c ← fetch (k1040 "36")
        pure (.vnum (a.q - c.q))
      else pure .vnone)
  | "35b" => some (do
      let a ← fetch (k1040 "35a")
      pure (if a.q > 1/1000 then .vstr I.routing_number else .vnone))
  | "35c" => some (do
      let a ← fetch (k1040 "35a")
      pure (if a.q > 1/1000 then .vbool I.checking_account else .vnone))
  | "35d" => some (do
      let a ← fetch (k1040 "35a")
      pure (if a.q > 1/1000 then .vstr I.account_number else .vnone))
  | "36" => some (do
      let a ← fetch (k1040 "34")
      pure (if a.q > 1/1000 then .vnum (min a.q (max 0 I.apply_to_estimated_tax)) else .vnone))
  | "37" => some (do
      let a ← fetch (k1040 "33"); let b ← fetch (k1040 "24")
      pure (if a.q > b.q then Value.vnone else .vnum (b.q - a.q)))
  | "38" => some (line_38 I)
  | "designee" => some (pure (.vbool false))
  | "occupation" => some (pure (.vstr I.occupation))
  | "spouse_occupation" => some (pure (.vstr
      (if I.filing_status = .MarriedFilingJointly then I.spouse_occupation else "")))
  | "phone_number" => some (pure (.vstr I.phone_number))
  | "email_address" => some (pure (.vstr I.email_address))
  | "dependent_0_name" => some (dependent_str_field I 0 I.dependent_name)
  | "dependent_0_ssn" => some (dependent_str_field I 0 I.dependent_ssn)
  | "dependent_0_relationship" => some (dependent_str_field I 0 I.dependent_relationship)
  | "dependent_0_ctc" => some (dependent_ctc_field I 0)
  | "dependent_0_odc" => some (dependent_odc_field I 0)
  | "dependent_1_name" => some (dependent_str_field I 1 I.dependent_name)
  | "dependent_1_ssn" => some (dependent_str_field I 1 I.dependent_ssn)
  | "dependent_1_relationship" => some (dependent_str_field I 1 I.dependent_relationship)
  | "dependent_1_ctc" => some (dependent_ctc_field I 1)
  | "dependent_1_odc" => some (dependent_odc_field I 1)
  | "dependent_2_name" => some (dependent_str_field I 2 I.dependent_name)
  | "dependent_2_ssn" => some (dependent_str_field I 2 I.dependent_ssn)
  | "dependent_2_relationship" => some (dependent_str_field I 2 I.dependent_relationship)
  | "dependent_2_ctc" => some (dependent_ctc_field I 2)
  | "dependent_2_odc" => some (dependent_odc_field I 2)
  | "dependent_3_name" => some (dependent_str_field I 3 I.dependent_name)
  | "dependent_3_ssn" => some (dependent_str_field I 3 I.dependent_ssn)
  | "dependent_3_relationship" => some (dependent_str_field I 3 I.dependent_relationship)
  | "dependent_3_ctc" => some (dependent_ctc_field I 3)
  | "dependent_3_odc" => some (dependent_odc_field I 3)
  | _ => none

/-- The `ssn` field of f1040_sc.py: the proprietor's SSN from Form 1040;
estate/trust owners are not implemented. -/
def sc_ssn (S : F1040SCInputs) : Comp Value :=
  if S.ssn_source = .taxpayer then fetch (k1040 "you_ssn")
  else if S.ssn_source = .spouse then fetch (k1040 "spouse_ssn")
  else Comp.notImpl (some "Businesses owned by Estates and Trusts are not implemented.")

/-- The `f` field of f1040_sc.py: the accounting method; changing methods
requires Form 3115, which is not implemented. -/
def sc_f (S : F1040SCInputs) : Comp Value :=
  if S.accounting_method_changed then
    Comp.notImpl (some "To change your accounting method, you must generally file Form 3115, which is not implemented.")
  else pure (.vbam S.f)

/-- The per-line `1_payer_{line}` field of f1040_sc.py: the payer of the
line-th 1099-INT, absent when fewer 1099-INTs were loaded (the bound is
the cross-form input `1040.number_1099-int`). -/
def sc_1_payer (I : F1040Inputs) (line : Nat) : Comp Value :=
  if (line : Int) < I.number_1099int then fetch (kint line "payer")
  else pure .vnone

/-- The per-line `1_amount_{line}` field of f1040_sc.py: box 1 plus box 3
of the line-th 1099-INT, absent when fewer 1099-INTs were loaded. -/
def sc_1_amount (I : F1040Inputs) (line : Nat) : Comp Value :=
  if (line : Int) < I.number_1099int then do
    let a ← fetchQ (kint line "box_1")
    let b ← fetchQ (kint line "box_3")
    pure (.vnum (a + b))
  else pure .vnone

/-- The per-line `5_payer_{line}` field of f1040_sc.py: the payer of the
line-th 1099-DIV, absent when fewer 1099-DIVs were loaded. -/
def sc_5_payer (I : F1040Inputs) (line : Nat) : Comp Value :=
  if (line : Int) < I.number_1099div then fetch (kdiv line "payer")
  else pure .vnone

/-- The per-line `5_amount_{line}` field of f1040_sc.py: box 1a of the
line-th 1099-DIV, absent when fewer 1099-DIVs were loaded. -/
def sc_5_amount (I : F1040Inputs) (line : Nat) : Comp Value :=
  if (line : Int) < I.number_1099div then do
    let a ← fetchQ (kdiv line "box_1a")
    pure (.vnum a)
  else pure .vnone

/-- The numbered per-line fields of f1040_sc.py (the `for line in
range(NUM_FIELDS)` loop with NUM_FIELDS = 14). -/
def scNumberedField (I : F1040Inputs) (name : String) : Option (Comp Value) :=
  (List.range 14).findSome? fun line =>
    if name = "1_payer_" ++ toString line then some (sc_1_payer I line)
    else if name = "1_amount_" ++ toString line then some (sc_1_amount I line)
    else if name = "5_payer_" ++ toString line then some (sc_5_payer I line)
    else if name = "5_amount_" ++ toString line then some (sc_5_amount I line)
    else none

/-- The `required_fields` list of Form1040SC.__init__ in f1040_sc.py, as a
map from field name to the compute function backing it. -/
def f1040scField (S : F1040SCInputs) (I : F1040Inputs) : String → Option (Comp Value)
  | "proprietor_name" => some (pure (.vstr S.proprietor_name))
  | "ssn" => some (sc_ssn S)
  | "a" => some (pure (.vstr S.a))
  | "b" => some (pure (.vstr S.b))
  | "c" => some (pure (.vstr S.c))
  | "d" => some (pure (.vstr S.d))
  | "e1" => some (pure (.vstr S.e1))
  | "e2" => some (pure (.vstr S.e2))
  | "f" => some (sc_f S)
  | "f_other" => some (pure (.vstr (if S.f = .other then S.f_other else "")))
  | "g" => some (if S.g then pure (.vbool S.g)
      else Comp.notImpl (some "Filers that did not 'materially participate' in the operation of this business during the tax year are not implemented."))
  | nm => scNumberedField I nm

/-- Modelled from the spec: the fields of a loaded 1099-INT instance,
exposing its box values (section 3, repeatable source-document forms). -/
def f1099intField (r : F1099IntInputs) : String → Option (Comp Value)
  | "payer" => some (pure (.vstr r.payer))
  | "box_1" => some (pure (.vnum r.box_1))
  | "box_3" => some (pure (.vnum r.box_3))
  | "box_4" => some (pure (.vnum r.box_4))
  | "box_6" => some (pure (.vnum r.box_6))
  | "box_8" => some (pure (.vnum r.box_8))
  | _ => none

/-- Modelled from the spec: the fields of a loaded 1099-R instance,
exposing its box values. -/
def f1099rField (r : F1099RInputs) : String → Option (Comp Value)
  | "box_1" => some (pure (.vnum r.box_1))
  | "box_2a" => some (pure (.vnum r.box_2a))
  | "box_2b_taxable_not_determined" => some (pure (.vbool r.box_2b_taxable_not_determined))
  | "box_4" => some (pure (.vnum r.box_4))
  | "box_7_ira_sep_simple" => some (pure (.vbool r.box_7_ira_sep_simple))
  | "belongs_to" => some (pure (.vtps r.belongs_to))
  | _ => none

/-- Dispatch a field request to the n-th loaded instance of a repeated
form: instance labels are decimal indices; an index at or beyond the
loaded count is not present. -/
def instField {α : Type} (idx : String) (f : α → String → Option (Comp Value))
    (xs : List α) (fieldName : String) : Option (Comp Value) :=
  (List.range xs.length).findSome? fun n =>
    if toString n = idx then
      match xs[n]? with
      | some x => f x fieldName
      | none => none
    else none

/-- The run configuration: which form instances are loaded, together with
their inputs.  `fig` is the opaque figure_tax helper of f1040.py (its
defining file is not under src/). -/
structure RunConfig where
  i1040 : F1040Inputs
  fig : ℚ → FilingStatus → ℚ
  sc : Option F1040SCInputs
  ints : List F1099IntInputs
  rs : List F1099RInputs

/-- Modelled from the spec: the registry mapping each Value Key to the
compute function of the loaded form instance backing it (section 4.3);
keys of forms or instances that are not loaded are unknown. -/
def mkFS (C : RunConfig) : FormSet := fun k =>
  match k.form, k.idx with
  | "1040", none => f1040field C.i1040 C.fig k.fieldName
  | "1040_sc", none =>
    match C.sc with
    | some S => f1040scField S C.i1040 k.fieldName
    | none => none
  | "1099-int", some idx => instField idx f1099intField C.ints k.fieldName
  | "1099-r", some idx => instField idx f1099rField C.rs k.fieldName
  | _, _ => none

/-- Modelled from the spec: one complete Run over a fixed Input set
(section 3, Run / Filing State): a fresh per-run state, the form registry
derived from the loaded instances, and the demanded keys resolved in
order. -/
def runFiling (C : RunConfig) (demands : List Key) : Except RErr (List Value × RState) :=
  resolveAll (mkFS C) tt 20 demands st0

/-- A Form 1040 input set with every answer at its blandest value: no
information documents, no dependents, no special scenarios, zero
amounts. -/
def baseInputs : F1040Inputs where
  first_name := "Ada"
  middle_initial := ""
  last_name := "Lovelace"
  you_ssn := "123456789"
  spouse_ssn := ""
  occupation := "analyst"
  spouse_first_name := ""
  spouse_middle_initial := ""
  spouse_last_name := ""
  spouse_occupation := ""
  phone_number := ""
  email_address := ""
  home_address := ""
  apartment_no := ""
  city := ""
  state := "NC"
  zip := ""
  foreign_country := ""
  foreign_province := ""
  foreign_postal_code := ""
  you_presidential_election := false
  spouse_presidential_election := false
  filing_status := .Single
  digital_assets := false
  number_dependents := 0
  claimed_as_dependent := false
  standard_deduction_exceptions := false
  number_w2 := 0
  non_w2_household_employee_income := 0
  non_w2_tip_income := 0
  non_w2_medicaid_waiver := 0
  dependent_care := false
  adoption_benefits := false
  form_8919_required := false
  other_earned_income := 0
  nontaxable_combat_pay := false
  number_1098 := 0
  number_1099g := 0
  number_1099int := 0
  number_1099oid := 0
  number_1099div := 0
  qualified_dividends_incorrect := false
  ordinary_dividends_incorrect := false
  number_1099r := 0
  ira_exception1_you := false
  ira_exception1_you_total := false
  ira_exception2_you := false
  ira_exception3_you := false
  ira_exception3_you_total := false
  ira_exception4_you := false
  ira_exception1_spouse := false
  ira_exception1_spouse_total := false
  ira_exception2_spouse := false
  ira_exception3_spouse := false
  ira_exception3_spouse_total := false
  ira_exception4_spouse := false
  pensions_annuities_adjustments := false
  social_security_benefits := false
  schedule_d_required := false
  form_8949_required := false
  schedule_1_additional_income := false
  schedule_1_income_adjustments := false
  itemize := false
  sa_itemize_though_less := false
  uncommon_tax := false
  need_8615 := false
  need_8962 := false
  need_schedule_3_part_i := false
  need_schedule_3_part_ii := false
  need_schedule_2 := false
  other_federal_withholding := 0
  estimated_tax_payments := 500
  self_employment_income := false
  rrta_compensation := false
  form_4797 := false
  postsecondary_education_expenses := false
  apply_to_estimated_tax := 0
  routing_number := "011234567"
  checking_account := true
  account_number := "42"
  tax_penalty := 0
  dependent_name := fun _ => ""
  dependent_ssn := fun _ => ""
  dependent_relationship := fun _ => ""
  dependent_ctc := fun _ => false
  dependent_odc := fun _ => false

/-- A PDF button field of pdf_fields.py as used by the f1040.py
`pdf_fields` list: the external PDF identifier, the internal Value Key it
is bound to, the "on" token, and the predicate deciding whether this
button is marked given the resolved value (`value_fn`). -/
structure ButtonPDF where
  pdfName : String
  valueKey : String
  onToken : String
  valueFn : Value → Bool

/-- The five filing-status radio buttons c1_3[0]..c1_3[4] of the f1040.py
`pdf_fields` list (lines 486-490), each bound to the internal Value Key
`filing_status` with its `value_fn` comparing the resolved value against
one member of the filing-status enumeration. -/
def c1_3_group : List ButtonPDF := [
  ⟨"topmostSubform[0].Page1[0].c1_3[0]", "filing_status", "1", fun v => v == .vfs .Single⟩,
  ⟨"topmostSubform[0].Page1[0].c1_3[1]", "filing_status", "2", fun v => v == .vfs .HeadOfHousehold⟩,
  ⟨"topmostSubform[0].Page1[0].c1_3[2]", "filing_status", "3", fun v => v == .vfs .MarriedFilingJointly⟩,
  ⟨"topmostSubform[0].Page1[0].c1_3[3]", "filing_status", "4", fun v => v == .vfs .MarriedFilingSeparately⟩,
  ⟨"topmostSubform[0].Page1[0].c1_3[4]", "filing_status", "5", fun v => v == .vfs .QualifyingSurvivingSpouse⟩]

/-- Modelled from the spec: the buttons of a group that evaluate "on" in
the produced PDF mapping for a given resolved value (section 4.4). -/
def buttonsOn (group : List ButtonPDF) (v : Value) : List ButtonPDF :=
  group.filter (fun b => b.valueFn v)

deriving instance DecidableEq for Except

/-- Run configuration of the 4a/4b memoization scenario: one 1099-R with
an IRA distribution of 100 belonging to the taxpayer, no exceptions. -/
def cfg4a4b : RunConfig :=
  ⟨{ baseInputs with number_1099r := 1 }, fun _ _ => 0, none, [],
   [⟨100, 0, false, 0, true, .taxpayer⟩]⟩

/-- Demands of the 4a/4b scenario: each of the paired fields twice. -/
def demands4a4b : List Key := [k1040 "4a", k1040 "4b", k1040 "4a", k1040 "4b"]

/-- The Run state after resolving field 4a in the 4a/4b scenario. -/
def stAfter4a : RState :=
  ⟨[(k1040 "4a", .vnum 0), (kr 0 "box_1", .vnum 100),
    (kr 0 "belongs_to", .vtps .taxpayer), (kr 0 "box_7_ira_sep_simple", .vbool true)],
   [],
   [k1040 "4a", kr 0 "box_7_ira_sep_simple", kr 0 "belongs_to", kr 0 "box_1"]⟩

/-- A key successfully resolved is in the resulting cache with its
resolved value. -/
def figZero : ℚ → FilingStatus → ℚ := fun _ _ => 0

/-- The demanded Form 1040 fields of the unsupported-scenario Run: the
whole income/deduction/payment chain that does not require any form
absent from the loaded set (lines 16-24 and 38 need the figure_tax helper
or schedules that are only present in the full repository). -/
def demandsRunA : List Key :=
  (["1a", "1z", "2a", "2b", "3a", "3b", "4a", "4b", "5a", "5b", "6a", "6b",
    "7", "8", "9", "10", "11", "12", "13", "14", "15", "19", "20", "21",
    "23", "25a", "25b", "25c", "25d", "26", "27", "28", "29", "30", "31",
    "32", "33", "34", "37", "full_names", "occupation"]).map k1040

/-- Run configuration of the unsupported-scenario Run: the bland input
set, where the earned income credit is possible (AGI 0 below the limit)
so field 27 signals not-implemented. -/
def cfgRunA : RunConfig := ⟨baseInputs, figZero, none, [], []⟩

/-- The values demandsRunA resolves to (fields 27, 32, 33, 34, 37 carry
the unsupported sentinel - 27 as the originating field, the rest by
propagation; every other field carries its correct value). -/
def expectedRunA : List Value :=
  [.vnone, .vnum 0, .vnum 0, .vnone, .vnone, .vnone, .vnone, .vnone, .vnone,
   .vnone, .vnone, .vnone, .vnum 0, .vnone, .vnum 0, .vnone, .vnum 0,
   .vnum 13850, .vnone, .vnum 13850, .vnum 0, .vnone,
   .vnone, .vnum 0, .vnone, .vnone, .vnone, .vnone, .vnum 0, .vnum 500,
   .vunsupported, .vnone, .vnone, .vnone, .vnone, .vunsupported,
   .vunsupported, .vunsupported, .vunsupported, .vstr "Ada Lovelace",
   .vstr "analyst"]

/-- Schedule C inputs whose proprietor is an estate or trust. -/
def scEstate : F1040SCInputs :=
  ⟨"Ada Lovelace", .estateTrust, "consulting", "541990", "", "", "", "", .cash,
   "", false, true, false, true⟩

/-- Run configuration of the Schedule C estate/trust Run. -/
def cfgRunB : RunConfig := ⟨baseInputs, figZero, some scEstate, [], []⟩

/-- Demands of the Schedule C estate/trust Run: the ssn field plus
independent fields of both forms. -/
def demandsRunB : List Key := [ksc "proprietor_name", ksc "ssn", ksc "a", k1040 "26"]

/-- C2: a compute function signalling not-implemented does not abort the
Run.  In the Run where Form 1040 field 27 signals not-implemented with
its Earned Income Credit detail string, the whole demand list still
resolves: 27 resolves to the unsupported sentinel, every other
independent field resolves to its correct value (dependent fields 32, 33,
34, 37 propagate the sentinel), and the Run's unsupported-occurrence list
is exactly that key with its detail string.  Likewise for the schedule's
ssn field with an estate/trust owner. -/
def cycFS : FormSet := fun k =>
  if k = ⟨"f", none, "A"⟩ then some (fetch ⟨"f", none, "B"⟩)
  else if k = ⟨"f", none, "B"⟩ then some (fetch ⟨"f", none, "A"⟩)
  else none

/-- Witness for c3_cycle_detected: the concrete two-field cycle fails
with the full chain at fuel 3 from the fresh state. -/
def cfgNoSB : RunConfig :=
  ⟨{ baseInputs with number_1099int := 1 }, figZero, none,
   [⟨"First Bank", 2000, 0, 0, 0, 0⟩], []⟩

/-- C5: with summed 1099-INT interest above the sched_b_required_interest
threshold, Form 1040 field 2b fetches the cross-form Value Key 1040_sb.4;
since no form named 1040_sb is loaded, the resolution fails with the
unknown-key error naming that key - at every sufficient fuel, and never
with a default of zero. -/
def cfgC6 : RunConfig :=
  ⟨{ baseInputs with number_1099int := 1 }, figZero,
   some { scEstate with ssn_source := .taxpayer },
   [⟨"First Bank", 2000, 0, 0, 0, 0⟩], []⟩

/-- C6: requesting a per-line field of the schedule for a line index at
or beyond the number of loaded 1099-INT instances resolves to the
explicit absent marker (distinguishable from zero), for every such line
of the schedule's fourteen; and Form 1040 field 2a - the sum of box 8
over the loaded 1099-INT instances - resolves to the additive identity
0.0, not an error, when zero instances are loaded. -/
def st33_24 (a b : ℚ) : RState :=
  ⟨[(k1040 "33", .vnum a), (k1040 "24", .vnum b)], [], []⟩

/-- C9: in every Run of Form 1040 and for all resolved amounts a (line
33, total payments) and b (line 24, total tax), fields 34 (overpayment)
and 37 (amount owed) never both resolve to numeric values: 34 is numeric
exactly when 33 exceeds 24 (equal to their difference, else the absent
marker), 37 is absent exactly in that case (equal to 24 minus 33
otherwise), and when 33 equals 24, 34 is absent while 37 resolves to
0.0. -/
theorem resolve_ok_cache (FS : FormSet) (TT : TTMap) (fuel : Nat) (k : Key)
    (st st2 : RState) (v : Value)
    (h : resolve FS TT (fuel+1) [] k st = .ok (v, st2)) :
    st2.cache.lookup k = some v := by
  unfold resolve at h
  rw [if_neg (List.not_mem_nil k)] at h
  split at h
  · rename_i v0 hc
    injection h with h'
    injection h' with hv hst
    subst hv hst
    exact hc
  · rename_i hc
    split at h
    · exact absurd h (by simp)
    · split at h
      · exact absurd h (by simp)
      · rename_i v2 st3 hrun
        injection h with h'
        injection h' with hv hst
        subst hv hst
        simp [List.lookup]
      · rename_i d st3 hrun
        injection h with h'
        injection h' with hv hst
        subst hv hst
        simp [List.lookup]

/-- C1: resolving the same Value Key a second time returns the identical
value with the Run state unchanged (so the compute function backing the
field is not re-invoked); in the concrete 4a/4b Run, demanding 4a, 4b, 4a,
4b yields the values of the shared helper line_4a_4b twice over, while the
invocation log shows each field's own compute function (4a's, 4b's, and
each 1099-R box field's) invoked exactly once - memoization is at field
granularity: 4b's compute re-runs the helper, whose re-fetches are served
from the cache. -/
theorem c1_memoization :
    (∀ (FS : FormSet) (TT : TTMap) (f g : Nat) (k : Key) (st st2 : RState) (v : Value),
      resolve FS TT (f+1) [] k st = .ok (v, st2) →
      resolve FS TT (g+1) [] k st2 = .ok (v, st2)) ∧
    (runFiling cfg4a4b demands4a4b).map Prod.fst =
      .ok [.vnum 0, .vnum 100, .vnum 0, .vnum 100] ∧
    (runFiling cfg4a4b demands4a4b).map (fun p => p.2.invoked) =
      .ok [k1040 "4a", kr 0 "box_7_ira_sep_simple", kr 0 "belongs_to",
           kr 0 "box_1", k1040 "4b"] := by
  refine ⟨?_, by with_unfolding_all rfl, by with_unfolding_all rfl⟩
  intro FS TT f g k st st2 v h
  have hc := resolve_ok_cache FS TT f k st st2 v h
  unfold resolve
  rw [if_neg (List.not_mem_nil k), hc]

/-- Witness for c1_memoization: the first resolution of field 4a in the
4a/4b Run succeeds with the state stAfter4a, and re-resolving it from
that state returns the same value and the same state. -/
theorem c1_memoization_witness :
    resolve (mkFS cfg4a4b) tt 20 [] (k1040 "4a") st0 = .ok (.vnum 0, stAfter4a) ∧
    resolve (mkFS cfg4a4b) tt 20 [] (k1040 "4a") stAfter4a = .ok (.vnum 0, stAfter4a) :=
  ⟨by with_unfolding_all rfl,
   c1_memoization.1 (mkFS cfg4a4b) tt 19 19 (k1040 "4a") st0 stAfter4a (.vnum 0)
     (by with_unfolding_all rfl)⟩

/-- Modelled from the spec: computation functions are opaque host-language
closures; the figure_tax helper (f1040_figure_tax.py, not under src/) is
instantiated with an arbitrary concrete function for the scenario Runs -
no claim depends on its values (field 16 is never demanded). -/
theorem c2_unsupported_does_not_abort :
    (runFiling cfgRunA demandsRunA).map Prod.fst = .ok expectedRunA ∧
    (runFiling cfgRunA demandsRunA).map (fun p => p.2.unsupp) =
      .ok [(k1040 "27",
            some "You may be able to claim the Earned Income Credit, but it is not implemented")] ∧
    (runFiling cfgRunB demandsRunB).map Prod.fst =
      .ok [.vstr "Ada Lovelace", .vunsupported, .vstr "consulting", .vnum 500] ∧
    (runFiling cfgRunB demandsRunB).map (fun p => p.2.unsupp) =
      .ok [(ksc "ssn",
            some "Businesses owned by Estates and Trusts are not implemented.")] := by
  refine ⟨?_, ?_, ?_, ?_⟩ <;> with_unfolding_all rfl

/-- C3: in every form graph where field A's compute function starts by
fetching B and B's starts by fetching A, resolving A from any state in
which neither is cached fails with the CircularDependency error carrying
the full cyclic key chain [A, B, A] - at every sufficient fuel, so the
failure is the cycle guard firing, not fuel exhaustion, and no value is
ever produced. -/
theorem c3_cycle_detected (FS : FormSet) (TT : TTMap) (A B : Key)
    (cA cB : Value → Comp Value) (st : RState) (f : Nat)
    (hne : A ≠ B)
    (hA : FS A = some (.fetchK B cA))
    (hB : FS B = some (.fetchK A cB))
    (hcA : st.cache.lookup A = none)
    (hcB : st.cache.lookup B = none) :
    resolve FS TT (f+3) [] A st = .error (.circular [A, B, A]) := by
  simp only [resolve, runComp, hA, hB, hcA, hcB, List.nil_append, List.cons_append,
    List.not_mem_nil, List.mem_cons, List.mem_singleton, eq_false (Ne.symm hne),
    eq_self_iff_true, or_false, false_or, or_true, true_or, if_false, if_true,
    ite_false, ite_true, not_false_iff]

/-- A two-field form set in which field A fetches B and field B fetches
A. -/
theorem c3_cycle_detected_witness :
    resolve cycFS tt 3 [] ⟨"f", none, "A"⟩ st0 =
      .error (.circular [⟨"f", none, "A"⟩, ⟨"f", none, "B"⟩, ⟨"f", none, "A"⟩]) :=
  c3_cycle_detected cycFS tt ⟨"f", none, "A"⟩ ⟨"f", none, "B"⟩ Comp.pure Comp.pure st0 0
    (by decide) (by with_unfolding_all rfl) (by with_unfolding_all rfl) rfl rfl

/-- No bucket of a bucket list containing the selector means the filter
of matching buckets is empty. -/
theorem filter_buckets_nil (bs : List (List FilingStatus × ℚ)) (fs : FilingStatus)
    (h : ∀ b ∈ bs, fs ∉ b.1) :
    bs.filter (fun b => decide (fs ∈ b.1)) = [] := by
  induction bs with
  | nil => rfl
  | cons b rest ih =>
    have hb : decide (fs ∈ b.1) = false :=
      decide_eq_false (h b (List.mem_cons_self b rest))
    simp only [List.filter, hb]
    exact ih (fun x hx => h x (List.mem_cons_of_mem b hx))

/-- C4: for Form 1040's standard_deduction threshold spec (buckets
{(Single, MarriedFilingSeparately): 13850, (MarriedFilingJointly,
QualifyingSurvivingSpouse): 27700, HeadOfHousehold: 20800}), the lookup
returns the scalar of the unique bucket containing the selector, for each
of the five filing statuses; and in general a selector contained in no
bucket of a mapping spec fails as a threshold lookup error rather than
returning a default. -/
theorem c4_threshold_buckets :
    thresholdGet thresholds1040 "standard_deduction" (some .Single) = .ok 13850 ∧
    thresholdGet thresholds1040 "standard_deduction" (some .MarriedFilingSeparately) = .ok 13850 ∧
    thresholdGet thresholds1040 "standard_deduction" (some .MarriedFilingJointly) = .ok 27700 ∧
    thresholdGet thresholds1040 "standard_deduction" (some .QualifyingSurvivingSpouse) = .ok 27700 ∧
    thresholdGet thresholds1040 "standard_deduction" (some .HeadOfHousehold) = .ok 20800 ∧
    (∀ (tbl : ThresholdTable) (name : String) (bs : List (List FilingStatus × ℚ))
       (fs : FilingStatus),
      tbl.lookup name = some (.buckets bs) →
      (∀ b ∈ bs, fs ∉ b.1) →
      thresholdGet tbl name (some fs) = .error (.thresholdErr name)) := by
  refine ⟨by with_unfolding_all rfl, by with_unfolding_all rfl, by with_unfolding_all rfl,
    by with_unfolding_all rfl, by with_unfolding_all rfl, ?_⟩
  intro tbl name bs fs hfind hnone
  have hfil := filter_buckets_nil bs fs hnone
  simp only [thresholdGet, hfind, hfil]

/-- Witness for c4_threshold_buckets: a one-bucket table queried with a
filing status outside its only bucket fails. -/
theorem c4_threshold_buckets_witness :
    ([("only_single", TSpec.buckets [([.Single], 1)])] : ThresholdTable).lookup "only_single" =
        some (.buckets [([.Single], 1)]) ∧
    (∀ b ∈ [([FilingStatus.Single], (1:ℚ))], FilingStatus.HeadOfHousehold ∉ b.1) ∧
    thresholdGet [("only_single", TSpec.buckets [([.Single], 1)])] "only_single"
      (some .HeadOfHousehold) = .error (.thresholdErr "only_single") :=
  ⟨by with_unfolding_all rfl, by decide,
   c4_threshold_buckets.2.2.2.2.2 [("only_single", TSpec.buckets [([.Single], 1)])]
     "only_single" [([.Single], 1)] .HeadOfHousehold (by with_unfolding_all rfl) (by decide)⟩

/-- Run configuration of the missing-Schedule-B Run: one 1099-INT with
2000 of interest (above the 1500 sched_b_required_interest threshold) and
no form named 1040_sb loaded (the only schedule in the sources registers
form_name "1040_sc"). -/
theorem c5_missing_schedule_b (f : Nat) :
    resolve (mkFS cfgNoSB) tt (f+2) [] (k1040 "2b") st0 =
      .error (.unknownKey ⟨"1040_sb", none, "4"⟩) := by
  with_unfolding_all rfl

/-- Run configuration with the schedule loaded and exactly one 1099-INT
instance. -/
theorem c6_repeated_instance_bounds :
    (∀ (line : Nat), line < 14 → 1 ≤ line →
      (resolve (mkFS cfgC6) tt 5 [] (ksc ("1_amount_" ++ toString line)) st0).map Prod.fst =
        .ok Value.vnone) ∧
    (resolve (mkFS cfgRunA) tt 5 [] (k1040 "2a") st0).map Prod.fst = .ok (.vnum 0) := by
  constructor
  · intro line h14 h1
    interval_cases line <;> with_unfolding_all rfl
  · with_unfolding_all rfl

/-- Witness for c6_repeated_instance_bounds: line 3 with one loaded
1099-INT resolves to the absent marker. -/
theorem c6_repeated_instance_bounds_witness :
    (3 < 14 ∧ 1 ≤ 3) ∧
    (resolve (mkFS cfgC6) tt 5 [] (ksc ("1_amount_" ++ toString 3)) st0).map Prod.fst =
      .ok Value.vnone :=
  ⟨⟨by decide, by decide⟩, c6_repeated_instance_bounds.1 3 (by decide) (by decide)⟩

/-- C7: a Run is a pure function of its configuration (the loaded form
instances and their Inputs): two Runs over equal Input sets resolve
identical value sets, and each Run starts from the fresh empty state st0,
so no state of one Run is observable from another. -/
theorem c7_determinism (A B : RunConfig) (demands : List Key) (h : A = B) :
    runFiling A demands = runFiling B demands ∧
    runFiling A demands = resolveAll (mkFS A) tt 20 demands st0 := by
  subst h
  exact ⟨rfl, rfl⟩

/-- Witness for c7_determinism: two identically configured Runs over the
4a/4b scenario agree. -/
theorem c7_determinism_witness :
    cfg4a4b = cfg4a4b ∧
    runFiling cfg4a4b demands4a4b = runFiling cfg4a4b demands4a4b ∧
    runFiling cfg4a4b demands4a4b = resolveAll (mkFS cfg4a4b) tt 20 demands4a4b st0 :=
  ⟨rfl, (c7_determinism cfg4a4b cfg4a4b demands4a4b rfl).1,
        (c7_determinism cfg4a4b cfg4a4b demands4a4b rfl).2⟩

/-- C8: for every resolved value of Form 1040's enum-valued field
filing_status, exactly one of the five external PDF identifiers
c1_3[0]..c1_3[4] bound to it evaluates "on" in the produced mapping, and
every button of the group is bound to the internal Value Key
filing_status. -/
theorem c8_filing_status_buttons (fs : FilingStatus) :
    (buttonsOn c1_3_group (.vfs fs)).length = 1 ∧
    ∀ b ∈ c1_3_group, b.valueKey = "filing_status" := by
  constructor
  · cases fs <;> rfl
  · intro b hb
    simp only [c1_3_group, List.mem_cons, List.not_mem_nil, or_false] at hb
    rcases hb with rfl | rfl | rfl | rfl | rfl <;> rfl

/-- A Run state in which Form 1040 fields 33 and 24 have resolved to the
amounts a and b. -/
theorem c9_overpayment_owed_exclusive (C : RunConfig) (a b : ℚ) :
    ∃ r34 r37 s34 s37,
      resolve (mkFS C) tt 5 [] (k1040 "34") (st33_24 a b) = .ok (r34, s34) ∧
      resolve (mkFS C) tt 5 [] (k1040 "37") (st33_24 a b) = .ok (r37, s37) ∧
      (¬ ∃ x y, r34 = Value.vnum x ∧ r37 = Value.vnum y) ∧
      (r34 = if a > b then Value.vnum (a - b) else Value.vnone) ∧
      (r37 = if a > b then Value.vnone else Value.vnum (b - a)) ∧
      (a = b → r34 = Value.vnone ∧ r37 = Value.vnum 0) := by
  refine ⟨_, _, _, _, by with_unfolding_all rfl, by with_unfolding_all rfl, ?_, ?_, ?_, ?_⟩
  · by_cases h : a > b <;> simp [Value.q, h]
  · simp [Value.q]
  · simp [Value.q]
  · intro he
    subst he
    simp [Value.q]

/-- Resolving a key whose compute function immediately returns a value:
the value is cached and the single invocation logged. -/
theorem resolve_pure_comp (FS : FormSet) (TT : TTMap) (f : Nat) (stack : List Key)
    (k : Key) (st : RState) (v : Value)
    (hs : k ∉ stack) (hc : st.cache.lookup k = none) (hk : FS k = some (Comp.pure v)) :
    resolve FS TT (f+1) stack k st =
      .ok (v, ⟨(k, v) :: st.cache, st.unsupp, st.invoked ++ [k]⟩) := by
  simp only [resolve, runComp, hs, hc, hk, if_false, ite_false, if_neg hs]

/-- Resolving a key whose compute function fetches one other key backed
by an immediate value: both invocations are logged and both results
cached. -/
theorem resolve_fetch_then_pure (FS : FormSet) (TT : TTMap) (f : Nat)
    (k k2 : Key) (st : RState) (w : Value) (g : Value → Value)
    (hne : k2 ≠ k)
    (hck : st.cache.lookup k = none) (hck2 : st.cache.lookup k2 = none)
    (hk : FS k = some (Comp.fetchK k2 (fun v => Comp.pure (g v))))
    (hk2 : FS k2 = some (Comp.pure w)) (hw : w ≠ .vunsupported) :
    resolve FS TT (f+2) [] k st =
      .ok (g w, ⟨(k, g w) :: (k2, w) :: st.cache, st.unsupp,
                 (st.invoked ++ [k]) ++ [k2]⟩) := by
  cases w
  case vunsupported => exact absurd rfl hw
  all_goals
    simp only [resolve, runComp, hck, hck2, hk, hk2, hne, List.not_mem_nil,
      List.nil_append, List.mem_singleton, if_false, ite_false, not_false_iff,
      List.append_assoc, List.singleton_append, List.cons_append]

/-- C10: for every dependent index n in 0..3 and every Run of Form 1040,
the fields dependent_n_ctc and dependent_n_odc never both resolve to
True: when the slot is in use (n below number_dependents) ctc resolves to
its input and odc resolves to its input exactly when the resolved ctc
field is falsy (else the absent marker); when n is at or beyond
number_dependents both fields resolve to the absent marker. -/
theorem c10_dependent_ctc_odc_exclusive (C : RunConfig) (n : Fin 4) :
    ∃ vc vo sc2 so2,
      resolve (mkFS C) tt 5 [] (k1040 ("dependent_" ++ toString n.val ++ "_ctc")) st0 = .ok (vc, sc2) ∧
      resolve (mkFS C) tt 5 [] (k1040 ("dependent_" ++ toString n.val ++ "_odc")) st0 = .ok (vo, so2) ∧
      (¬ (vc = .vbool true ∧ vo = .vbool true)) ∧
      ((n.val : Int) ≥ C.i1040.number_dependents → vc = .vnone ∧ vo = .vnone) ∧
      ((n.val : Int) < C.i1040.number_dependents →
        vc = .vbool (C.i1040.dependent_ctc n.val) ∧
        vo = (if C.i1040.dependent_ctc n.val then Value.vnone
              else .vbool (C.i1040.dependent_odc n.val))) := by
  have hFSc : mkFS C (k1040 ("dependent_" ++ toString n.val ++ "_ctc")) =
      some (dependent_ctc_field C.i1040 n.val) := by fin_cases n <;> rfl
  have hFSo : mkFS C (k1040 ("dependent_" ++ toString n.val ++ "_odc")) =
      some (dependent_odc_field C.i1040 n.val) := by fin_cases n <;> rfl
  have hne : k1040 ("dependent_" ++ toString n.val ++ "_ctc") ≠
      k1040 ("dependent_" ++ toString n.val ++ "_odc") := by fin_cases n <;> decide
  by_cases h : (n.val : Int) < C.i1040.number_dependents
  · -- slot in use
    have hc : dependent_ctc_field C.i1040 n.val =
        Comp.pure (.vbool (C.i1040.dependent_ctc n.val)) := by
      unfold dependent_ctc_field
      rw [if_pos h]
      rfl
    have ho : dependent_odc_field C.i1040 n.val =
        Comp.fetchK (k1040 ("dependent_" ++ toString n.val ++ "_ctc"))
          (fun v => Comp.pure (if v.b then Value.vnone
            else .vbool (C.i1040.dependent_odc n.val))) := by
      unfold dependent_odc_field
      rw [if_pos h]
      rfl
    refine ⟨_, _, _, _,
      resolve_pure_comp (mkFS C) tt 4 [] _ st0 _ (List.not_mem_nil _) rfl (by rw [hFSc, hc]),
      resolve_fetch_then_pure (mkFS C) tt 3 _ _ st0 (.vbool (C.i1040.dependent_ctc n.val))
        (fun v => if v.b then Value.vnone else .vbool (C.i1040.dependent_odc n.val))
        hne rfl rfl (by rw [hFSo, ho]) (by rw [hFSc, hc]) (by simp),
      ?_, ?_, ?_⟩
    · by_cases hb : C.i1040.dependent_ctc n.val <;> simp [Value.b, hb]
    · intro hge
      omega
    · intro _
      by_cases hb : C.i1040.dependent_ctc n.val <;> simp [Value.b, hb]
  · -- slot not in use
    have hc : dependent_ctc_field C.i1040 n.val = Comp.pure .vnone := by
      unfold dependent_ctc_field
      rw [if_neg h]
      rfl
    have ho : dependent_odc_field C.i1040 n.val = Comp.pure .vnone := by
      unfold dependent_odc_field
      rw [if_neg h]
      rfl
    refine ⟨_, _, _, _,
      resolve_pure_comp (mkFS C) tt 4 [] _ st0 _ (List.not_mem_nil _) rfl (by rw [hFSc, hc]),
      resolve_pure_comp (mkFS C) tt 4 [] _ st0 _ (List.not_mem_nil _) rfl (by rw [hFSo, ho]),
      ?_, ?_, ?_⟩
    · simp
    · intro _
      exact ⟨rfl, rfl⟩
    · intro hlt
      exact absurd hlt h
